import Mathlib

/-!
Shallow embedding of the desire-scoring and action-selection core of the
`proyek-bdi-brutal` BDI agent.

Numeric values the Python code stores as floats are modelled as rationals
(`ℚ`); observation counts (`beliefs_processed`, `new_beliefs`, `errors`) are
naturals.  Each definition mirrors one Python function of
`termux_bdi_agent/core/{belief_lite, desire_lite, intention_lite}.py` or
`github_actions_quantum/quantum/{desire_quantum, intention_quantum}.py`.
-/

/-- A row of the `desires` table (goal data model, `desire_lite.init_schema`). -/
structure Desire where
  id : String
  name : String
  type : String
  target_value : ℚ
  current_value : ℚ
  priority : ℚ
  weight : ℚ
  status : String
deriving DecidableEq

/-- The cycle-summary fields of `update_beliefs` that
`update_desires_from_beliefs` reads from its `belief_context` dict. -/
structure BeliefContext where
  beliefs_processed : Nat
  new_beliefs : Nat
  errors : Nat
deriving DecidableEq

/-- The per-type `current_value` update performed inside the loop of
`DesireSystemLite.update_desires_from_beliefs` (desire_lite.py lines 145-159):
`performance` gains `min(5.0, beliefs_processed * 0.1)` (clamped to 100) when
`beliefs_processed > 0`; `financial` gains `new_beliefs * 10.0` (no clamp) when
`new_beliefs > 0`; `quality` gains `1.0` (clamped to 100) when `errors == 0`
and otherwise loses `2.0` (clamped to 0); other types are unchanged. -/
def updateCurrentValue (belief_context : BeliefContext) (desire : Desire) : ℚ :=
  if desire.type = "performance" then
    (if belief_context.beliefs_processed > 0 then
      min 100 (desire.current_value +
        min 5 ((belief_context.beliefs_processed : ℚ) * (1/10)))
    else desire.current_value)
  else if desire.type = "financial" then
    (if belief_context.new_beliefs > 0 then
      desire.current_value + (belief_context.new_beliefs : ℚ) * 10
    else desire.current_value)
  else if desire.type = "quality" then
    (if belief_context.errors = 0 then min 100 (desire.current_value + 1)
    else max 0 (desire.current_value - 2))
  else desire.current_value

/-- One iteration of the loop body of `update_desires_from_beliefs`
(desire_lite.py lines 142-168): update `current_value` by type, then set
`priority = min(1.0, priority + urgency * 0.1)` with
`urgency = |target_value - current_value| / max(1.0, target_value)`.
Note the source takes `max(1.0, updated_desire["target_value"])` with NO
absolute value on `target_value` (line 162). -/
def updateDesire (belief_context : BeliefContext) (desire : Desire) : Desire :=
  let cv := updateCurrentValue belief_context desire
  let gap := |desire.target_value - cv|
  let max_gap := max 1 desire.target_value
  let urgency := gap / max_gap
  { desire with
      current_value := cv
      priority := min 1 (desire.priority + urgency * (1/10)) }

/-- `DesireSystemLite.update_desires_from_beliefs`: map the per-desire update
over the active desires, in order. -/
def update_desires_from_beliefs (desires : List Desire)
    (belief_context : BeliefContext) : List Desire :=
  desires.map (updateDesire belief_context)

/-- `gap_score` of `run_lightweight_optimization` (desire_lite.py lines
175-177): `gap / max(1.0, max(|target_value|, |current_value|))`. -/
def gap_score (desire : Desire) : ℚ :=
  |desire.target_value - desire.current_value| /
    max 1 (max |desire.target_value| |desire.current_value|)

/-- `total_score` of `run_lightweight_optimization` (desire_lite.py line 178):
`priority * 0.4 + gap_score * 0.4 + weight * 0.2`. -/
def total_score (desire : Desire) : ℚ :=
  desire.priority * (2/5) + gap_score desire * (2/5) + desire.weight * (1/5)

/-- The sort relation of `scored_desires.sort(key=lambda x: x["score"],
reverse=True)`: `a` may come before `b` when `a`'s score is at least `b`'s. -/
def scoreGe (a b : Desire) : Prop := total_score b ≤ total_score a

instance : DecidableRel scoreGe :=
  fun a b => inferInstanceAs (Decidable (total_score b ≤ total_score a))

instance : IsTotal Desire scoreGe :=
  ⟨fun a b => le_total (total_score b) (total_score a)⟩

instance : IsTrans Desire scoreGe :=
  ⟨fun _ _ _ h1 h2 => le_trans h2 h1⟩

/-- Return value of `run_lightweight_optimization`. -/
structure OptimizationOutput where
  prioritized_desires : List Desire
  method : String
deriving DecidableEq

/-- `DesireSystemLite.run_lightweight_optimization` (desire_lite.py lines
172-186): score every desire, sort descending by score (Python `list.sort` is
stable, so ties keep input order; `insertionSort` has the same stable
semantics), and return the desires in ranked order.  The Python code sorts
`{"desire": d, "score": s}` wrappers by the `score` key and then projects out
the desires; since the score is a function of the desire alone this equals
sorting the desires themselves by score. -/
def run_lightweight_optimization (desires : List Desire) : OptimizationOutput :=
  { prioritized_desires := List.insertionSort scoreGe desires
    method := "lightweight_weighted_scoring" }

/-- The 4 seeded goals of `DesireSystemLite.init_default_desires`
(desire_lite.py lines 61-98). -/
def default_desires : List Desire :=
  [ { id := "revenue_generation", name := "Revenue Generation",
      type := "financial", target_value := 50000, current_value := 0,
      priority := 9/10, weight := 1, status := "active" },
    { id := "system_efficiency", name := "System Efficiency",
      type := "performance", target_value := 95, current_value := 80,
      priority := 4/5, weight := 4/5, status := "active" },
    { id := "user_satisfaction", name := "User Satisfaction",
      type := "quality", target_value := 90, current_value := 75,
      priority := 7/10, weight := 3/5, status := "active" },
    { id := "cost_optimization", name := "Cost Optimization",
      type := "financial", target_value := 0, current_value := 100,
      priority := 3/5, weight := 1/2, status := "active" } ]

/-- Folding `updateDesire` over a sequence of cycle summaries: the value a
goal reaches after that sequence of cycles. -/
def run_cycles (desire : Desire) (ctxs : List BeliefContext) : Desire :=
  ctxs.foldl (fun d ctx => updateDesire ctx d) desire

/-- Return dict of `optimize_desires`, keeping the fields the claims read:
`error` (absent on success), `count`, `top_desires`, `desires_processed`. -/
structure OptimizeResult where
  error : Option String
  count : Nat
  top_desires : List Desire
  desires_processed : Nat
deriving DecidableEq

/-- `DesireSystemLite.optimize_desires` (desire_lite.py lines 103-133).  The
two database interactions that can raise — `get_all_desires` (the read) and
`update_desire`/`save_optimization_result` (the writes) — are modelled as
`Except`-valued capabilities; the surrounding `try/except` returns
`{"error": str(e), "count": 0}` on any exception, a dict that carries no
`top_desires` key (modelled as the empty list, matching
`desire_context.get("top_desires", [])` in the executor). -/
def optimize_desires (get_all : Except String (List Desire))
    (persist : List Desire → Except String Unit)
    (belief_context : BeliefContext) : OptimizeResult :=
  match get_all with
  | .error e => { error := some e, count := 0, top_desires := [], desires_processed := 0 }
  | .ok current_desires =>
    let updated_desires := update_desires_from_beliefs current_desires belief_context
    let optimization_result := run_lightweight_optimization updated_desires
    match persist updated_desires with
    | .error e => { error := some e, count := 0, top_desires := [], desires_processed := 0 }
    | .ok _ =>
      { error := none
        count := updated_desires.length
        top_desires := optimization_result.prioritized_desires.take 5
        desires_processed := updated_desires.length }

/-- A row of the `beliefs` table (belief_lite.py `init_schema`); the fields
`process_source_data` writes. -/
structure Belief where
  id : String
  content : String
  source : String
  confidence : ℚ
deriving DecidableEq

/-- The content-hash identity of an observation
(belief_lite.py line 106): the id is a deterministic digest of the string
`source_name ++ "_" ++ content_str`.  The MD5 digest itself is library code,
not part of this repository; it is modelled by the hashed string itself,
which preserves the properties the dedup path relies on (determinism, and
distinct ids for the inputs considered here). -/
def belief_id (source_name : String) (content_str : String) : String :=
  source_name ++ "_" ++ content_str

/-- The two counters returned by `process_source_data`. -/
structure ProcessCounts where
  processed : Nat
  new : Nat
deriving DecidableEq

/-- `BeliefSystemLite.process_source_data` (belief_lite.py lines 99-123) over
an explicit store: for each item (already canonically serialized to a string,
per `json.dumps(item, sort_keys=True)`), compute its content-hash id; if a
belief with that id exists (`fetch_one ... WHERE id = ?`) count it as
processed only, otherwise insert it (`confidence` placeholder 0.8) and count
it as both processed and new.  Returns the final store and the counters. -/
def process_source_data (store : List Belief) (source_name : String) :
    List String → List Belief × ProcessCounts
  | [] => (store, ⟨0, 0⟩)
  | content_str :: rest =>
    let bid := belief_id source_name content_str
    match store.find? (fun b => b.id == bid) with
    | some _ =>
      let r := process_source_data store source_name rest
      (r.1, ⟨r.2.processed + 1, r.2.new⟩)
    | none =>
      let store2 := store ++ [{ id := bid, content := content_str,
                                source := source_name, confidence := 4/5 }]
      let r := process_source_data store2 source_name rest
      (r.1, ⟨r.2.processed + 1, r.2.new + 1⟩)

/-- Outcome of the notification capability (`termux-notification` subprocess
call): it either succeeds, or raises (command missing / other error). -/
inductive NotifyOutcome where
  | sent
  | commandNotFound
  | failure (msg : String)
deriving DecidableEq

/-- The `status` field of the dict returned by
`IntentionSystemLite.send_notification` (intention_lite.py lines 38-58):
`"success"` when the subprocess call succeeds, `"failed"` on
`FileNotFoundError` or any other exception. -/
def send_notification (outcome : NotifyOutcome) : String :=
  match outcome with
  | .sent => "success"
  | .commandNotFound => "failed"
  | .failure _ => "failed"

/-- The keys of `IntentionSystemLite.available_actions`
(intention_lite.py lines 18-21). -/
def available_actions : List String := ["send_notification", "simulate_action"]

/-- `IntentionSystemLite.select_action_for_desire` (intention_lite.py lines
98-110): every desire is mapped to the `send_notification` action, with a
title built from the desire's name and a content string mentioning its
priority (the Python renders the priority with 2-decimal float formatting,
modelled here by `toString` on the exact rational). -/
def select_action_for_desire (desire : Desire) : String × String × String :=
  ("send_notification",
    "🔥 " ++ desire.name,
    "Keinginan utama saat ini! Prioritas: " ++ toString desire.priority)

/-- Dispatch through `available_actions` (intention_lite.py line 80): the
status the selected action function returns. -/
def run_action (action_type : String) (outcome : NotifyOutcome) : String :=
  if action_type = "send_notification" then send_notification outcome
  else "simulated_success"

/-- A row appended to the `action_executions` audit table by
`log_execution_results` (the fields the claims read). -/
structure ActionRecord where
  action_type : String
  status : String
deriving DecidableEq

/-- Return value of `execute_intentions`: the `actions` counter and the list
of Action Execution Records appended during the call. -/
structure ExecutionResult where
  actions : Nat
  records : List ActionRecord
deriving DecidableEq

/-- `IntentionSystemLite.execute_intentions` (intention_lite.py lines 68-96):
with no top desires, return `actions = 0` and append nothing; otherwise pick
the first desire, select its action, and if the action type is registered,
run it, append exactly one record, and count `actions = 1` whenever the
result status differs from `"no_action_selected"`. -/
def execute_intentions (top_desires : List Desire) (outcome : NotifyOutcome) :
    ExecutionResult :=
  match top_desires with
  | [] => { actions := 0, records := [] }
  | desire :: _ =>
    let selected := select_action_for_desire desire
    if selected.1 ∈ available_actions then
      let status := run_action selected.1 outcome
      { actions := if status ≠ "no_action_selected" then 1 else 0
        records := [{ action_type := selected.1, status := status }] }
    else { actions := 0, records := [] }

/-- A candidate action of `QuantumIntentionPlanner` (intention_quantum.py
`action_templates`): `(cost, impact, duration)`. -/
structure ActionCandidate where
  id : String
  cost : ℚ
  impact : ℚ
  duration : ℚ
deriving DecidableEq

/-- `QuantumIntentionPlanner._classical_optimize_plan` (intention_quantum.py
lines 127-130), written without the Python leading underscore: the classical
fallback keeps exactly the actions with `impact > cost` — an order-preserving
filter with no capacity bound and no ratio sort. -/
def classical_optimize_plan (actions : List ActionCandidate) :
    List ActionCandidate :=
  actions.filter (fun action => action.cost < action.impact)

/-- A candidate desire of `QuantumDesireOptimizer` (desire_quantum.py
`formulate_optimization_problem`): `(utility, cost)`. -/
structure CandidateDesire where
  id : String
  utility : ℚ
  cost : ℚ
deriving DecidableEq

/-- The `solution` part of
`QuantumDesireOptimizer._solve_classical_optimization`. -/
structure ClassicalSolution where
  selected_desires : List CandidateDesire
  net_value : ℚ
  total_selected : Nat
deriving DecidableEq

/-- `QuantumDesireOptimizer._solve_classical_optimization` (desire_quantum.py
lines 124-134), written without the Python leading underscore: keep exactly
the desires with `utility > cost` and report the summed net value — again an
order-preserving filter with no capacity bound. -/
def solve_classical_optimization (desires : List CandidateDesire) :
    ClassicalSolution :=
  let selected := desires.filter (fun d => d.cost < d.utility)
  { selected_desires := selected
    net_value := (selected.map (fun d => d.utility - d.cost)).sum
    total_selected := selected.length }

/-! ### Helper lemmas -/

/-- The urgency term of `updateDesire` is nonnegative: the denominator
`max 1 target_value` is at least 1 even for negative targets. -/
theorem urgency_nonneg (t cv : ℚ) : 0 ≤ |t - cv| / max 1 t :=
  div_nonneg (abs_nonneg _) (le_trans zero_le_one (le_max_left _ _))

theorem gap_score_nonneg (d : Desire) : 0 ≤ gap_score d :=
  div_nonneg (abs_nonneg _)
    (le_trans zero_le_one (le_max_left _ _))

/-- The denominator of `gap_score` dominates half the numerator, so the
score contribution of the gap is at most 2. -/
theorem gap_score_le_two (d : Desire) : gap_score d ≤ 2 := by
  unfold gap_score
  set t := d.target_value
  set c := d.current_value
  have hD : (1:ℚ) ≤ max 1 (max |t| |c|) := le_max_left _ _
  have hD0 : (0:ℚ) < max 1 (max |t| |c|) := lt_of_lt_of_le one_pos hD
  rw [div_le_iff₀ hD0]
  have h1 : |t - c| ≤ |t| + |c| := abs_sub t c
  have h2 : |t| ≤ max 1 (max |t| |c|) :=
    le_trans (le_max_left _ _) (le_max_right _ _)
  have h3 : |c| ≤ max 1 (max |t| |c|) :=
    le_trans (le_max_right _ _) (le_max_right _ _)
  linarith

theorem updateDesire_type_eq (ctx : BeliefContext) (d : Desire) :
    (updateDesire ctx d).type = d.type := rfl

theorem updateDesire_current_value_eq (ctx : BeliefContext) (d : Desire) :
    (updateDesire ctx d).current_value = updateCurrentValue ctx d := rfl

/-- The `performance` branch of the per-type dispatch. -/
theorem updateCurrentValue_performance (ctx : BeliefContext) (d : Desire)
    (ht : d.type = "performance") :
    updateCurrentValue ctx d =
      if ctx.beliefs_processed > 0 then
        min 100 (d.current_value + min 5 ((ctx.beliefs_processed : ℚ) * (1/10)))
      else d.current_value := by
  unfold updateCurrentValue
  rw [ht]
  rfl

/-- The `financial` branch of the per-type dispatch. -/
theorem updateCurrentValue_financial (ctx : BeliefContext) (d : Desire)
    (ht : d.type = "financial") :
    updateCurrentValue ctx d =
      if ctx.new_beliefs > 0 then
        d.current_value + (ctx.new_beliefs : ℚ) * 10
      else d.current_value := by
  unfold updateCurrentValue
  rw [ht]
  rfl

/-- The `quality` branch of the per-type dispatch. -/
theorem updateCurrentValue_quality (ctx : BeliefContext) (d : Desire)
    (ht : d.type = "quality") :
    updateCurrentValue ctx d =
      if ctx.errors = 0 then min 100 (d.current_value + 1)
      else max 0 (d.current_value - 2) := by
  unfold updateCurrentValue
  rw [ht]
  rfl

/-- One cycle keeps a `performance` or `quality` goal's value inside
`[0, 100]`. -/
theorem updateCurrentValue_bounds (ctx : BeliefContext) (d : Desire)
    (ht : d.type = "performance" ∨ d.type = "quality")
    (h0 : 0 ≤ d.current_value) (h1 : d.current_value ≤ 100) :
    0 ≤ updateCurrentValue ctx d ∧ updateCurrentValue ctx d ≤ 100 := by
  rcases ht with ht | ht
  · rw [updateCurrentValue_performance ctx d ht]
    split_ifs with hb
    · constructor
      · refine le_min (by norm_num) (add_nonneg h0 (le_min (by norm_num) ?_))
        positivity
      · exact min_le_left _ _
    · exact ⟨h0, h1⟩
  · rw [updateCurrentValue_quality ctx d ht]
    split_ifs with he
    · exact ⟨le_min (by norm_num) (by linarith), min_le_left _ _⟩
    · exact ⟨le_max_left _ _, max_le (by norm_num) (by linarith)⟩

/-- The `financial` rule applies no clamp: with fresh beliefs it adds exactly
`new_beliefs * 10`. -/
theorem financial_step_eq (ctx : BeliefContext) (d : Desire)
    (hf : d.type = "financial") (hn : 0 < ctx.new_beliefs) :
    (updateDesire ctx d).current_value
      = d.current_value + (ctx.new_beliefs : ℚ) * 10 := by
  rw [updateDesire_current_value_eq, updateCurrentValue_financial ctx d hf,
    if_pos hn]

/-! ### Claim theorems -/

/-- Claim C1: starting from the 4 seeded default goals, the cycle summary
`beliefs_processed = 10, new_beliefs = 2, errors = 0` drives the financial
goal `revenue_generation` from 0 to 20 (`new_beliefs * 10`), the performance
goal `system_efficiency` from 80 to 81 (improvement `min(5, 10*0.1) = 1`),
and the quality goal `user_satisfaction` from 75 to 76 (`+1` as
`errors = 0`). -/
theorem default_goals_cycle_update :
    (update_desires_from_beliefs default_desires ⟨10, 2, 0⟩).map
        (fun d => (d.id, d.current_value)) =
      [("revenue_generation", 20), ("system_efficiency", 81),
       ("user_satisfaction", 76), ("cost_optimization", 120)]
    ∧ default_desires.map (fun d => (d.id, d.current_value)) =
      [("revenue_generation", 0), ("system_efficiency", 80),
       ("user_satisfaction", 75), ("cost_optimization", 100)] := by
  constructor
  · norm_num [update_desires_from_beliefs, updateDesire, updateCurrentValue,
      default_desires]
    decide
  · norm_num [default_desires]

/-- Unfolding lemma: the priority written back by `updateDesire`. -/
theorem updateDesire_priority_def (ctx : BeliefContext) (d : Desire) :
    (updateDesire ctx d).priority
      = min 1 (d.priority
          + (|d.target_value - updateCurrentValue ctx d|
              / max 1 d.target_value) * (1/10)) := rfl

/-- The catch-all branch of the per-type dispatch: unlisted types keep their
value. -/
theorem updateCurrentValue_other (ctx : BeliefContext) (d : Desire)
    (h1 : d.type ≠ "performance") (h2 : d.type ≠ "financial")
    (h3 : d.type ≠ "quality") :
    updateCurrentValue ctx d = d.current_value := by
  unfold updateCurrentValue
  rw [if_neg h1, if_neg h2, if_neg h3]

/-- A goal with a negative target value, exercising the urgency
denominator. -/
def debt_goal : Desire :=
  { id := "debt_reduction", name := "Debt Reduction", type := "misc",
    target_value := -10, current_value := 0, priority := 1/2, weight := 1,
    status := "active" }

/-- A goal with in-range priority and a large (but legal) weight. -/
def heavy_goal : Desire :=
  { id := "heavy", name := "Heavy", type := "misc", target_value := 0,
    current_value := 0, priority := 1/2, weight := 5, status := "active" }

/-- The seeded `revenue_generation` goal (head of `default_desires`). -/
def revenue_goal : Desire :=
  { id := "revenue_generation", name := "Revenue Generation",
    type := "financial", target_value := 50000, current_value := 0,
    priority := 9/10, weight := 1, status := "active" }

/-- Claim C2 counterexample: the source computes the urgency denominator as
`max(1.0, target_value)` with no absolute value (desire_lite.py line 162), so
for a goal with `target_value = -10`, `current_value = 0`, `priority = 1/2`
the written-back priority is `min 1 (1/2 + (10/1)*(1/10)) = 1`, not the
claimed `min 1 (1/2 + (10/max(1,|-10|))*(1/10)) = 3/5`. -/
theorem urgency_denominator_signed_cex :
    ¬ ((updateDesire ⟨0, 0, 0⟩ debt_goal).priority
        = min 1 (debt_goal.priority
            + (|debt_goal.target_value
                  - (updateDesire ⟨0, 0, 0⟩ debt_goal).current_value|
                / max 1 |debt_goal.target_value|) * (1/10))) := by
  have hcv : (updateDesire ⟨0, 0, 0⟩ debt_goal).current_value
      = debt_goal.current_value := by
    rw [updateDesire_current_value_eq]
    exact updateCurrentValue_other _ _ (by decide) (by decide) (by decide)
  rw [updateDesire_priority_def, hcv,
    updateCurrentValue_other _ _ (by decide) (by decide) (by decide)]
  show ¬ (min 1 ((1:ℚ)/2 + (|(-10:ℚ) - 0| / max 1 (-10:ℚ)) * (1/10))
      = min 1 ((1:ℚ)/2 + (|(-10:ℚ) - 0| / max 1 |(-10:ℚ)|) * (1/10)))
  have h10 : |(-10:ℚ) - 0| = 10 := by
    rw [sub_zero, abs_of_nonpos (by norm_num)]
    norm_num
  rw [h10, max_eq_left (by norm_num : (-10:ℚ) ≤ 1),
    abs_of_nonpos (by norm_num : (-10:ℚ) ≤ 0)]
  norm_num

/-- Claim C2 (amended): the urgency-adjusted priority equals
`min(1, priority + (|target_value - current_value| / max(1, target_value)) * 0.1)`
— the denominator uses the signed `target_value`, not its absolute value —
and the urgency term is still nonnegative, because the denominator is at
least 1 even for negative targets. -/
theorem urgency_formula_signed_denominator (d : Desire) (ctx : BeliefContext) :
    (updateDesire ctx d).priority
      = min 1 (d.priority
          + (|d.target_value - updateCurrentValue ctx d|
              / max 1 d.target_value) * (1/10))
    ∧ 0 ≤ |d.target_value - updateCurrentValue ctx d| / max 1 d.target_value :=
  ⟨rfl, urgency_nonneg _ _⟩

/-- Claim C9: the `quality` rule is gated only on `errors == 0`; in every
cycle summary with zero errors a quality goal's value becomes
`min 100 (current_value + 1)`, regardless of `beliefs_processed` and
`new_beliefs` (both may be 0). -/
theorem quality_rule_ungated_by_beliefs (d : Desire) (ctx : BeliefContext)
    (hq : d.type = "quality") (he : ctx.errors = 0) :
    updateCurrentValue ctx d = min 100 (d.current_value + 1) := by
  rw [updateCurrentValue_quality ctx d hq, if_pos he]

/-- The seeded `user_satisfaction` goal (third entry of
`default_desires`). -/
def satisfaction_goal : Desire :=
  { id := "user_satisfaction", name := "User Satisfaction",
    type := "quality", target_value := 90, current_value := 75,
    priority := 7/10, weight := 3/5, status := "active" }

/-- Witness for C9: the default quality goal (`user_satisfaction`, value 75)
in a completely empty but error-free cycle (`⟨0, 0, 0⟩`) still moves to 76. -/
theorem quality_rule_ungated_by_beliefs_witness :
    updateCurrentValue ⟨0, 0, 0⟩ satisfaction_goal = 76 := by
  rw [quality_rule_ungated_by_beliefs satisfaction_goal ⟨0, 0, 0⟩ rfl rfl]
  norm_num [satisfaction_goal]

/-- Claim C3 counterexample: a goal with in-range priority `1/2` and
nonnegative weight `5` already has ranking score
`1/2 * 0.4 + 0 + 5 * 0.2 = 6/5 > 1`, so the score is not confined to
`[0, 1]`. -/
theorem total_score_exceeds_one_cex : ¬ (total_score heavy_goal ≤ 1) := by
  norm_num [total_score, gap_score, heavy_goal]

/-- Claim C3 (amended): for a goal with `priority ∈ [0,1]` and `weight ≥ 0`,
the ranking score lies in `[0, 6/5 + weight * (1/5)]` (it is bounded but can
exceed 1, since `gap_score ∈ [0,2]` and the weight term is unbounded), while
the priority written back each cycle does always lie in `[0, 1]`. -/
theorem score_bounds_and_priority_unit (d : Desire) (ctx : BeliefContext)
    (hp0 : 0 ≤ d.priority) (hp1 : d.priority ≤ 1) (hw : 0 ≤ d.weight) :
    0 ≤ total_score d ∧ total_score d ≤ 6/5 + d.weight * (1/5)
    ∧ 0 ≤ (updateDesire ctx d).priority
    ∧ (updateDesire ctx d).priority ≤ 1 := by
  have hgs0 := gap_score_nonneg d
  have hgs2 := gap_score_le_two d
  have hu := urgency_nonneg d.target_value (updateCurrentValue ctx d)
  refine ⟨?_, ?_, ?_, ?_⟩
  · unfold total_score
    positivity
  · unfold total_score
    linarith
  · exact le_min zero_le_one
      (add_nonneg hp0 (mul_nonneg hu (by norm_num)))
  · exact min_le_left _ _

/-- Witness for C3 (amended) at the seeded `revenue_generation` goal
(priority 9/10 ∈ [0,1], weight 1 ≥ 0) and the cycle summary `⟨1, 1, 0⟩`. -/
theorem score_bounds_and_priority_unit_witness :
    0 ≤ total_score revenue_goal
    ∧ total_score revenue_goal ≤ 6/5 + revenue_goal.weight * (1/5)
    ∧ 0 ≤ (updateDesire ⟨1, 1, 0⟩ revenue_goal).priority
    ∧ (updateDesire ⟨1, 1, 0⟩ revenue_goal).priority ≤ 1 :=
  score_bounds_and_priority_unit revenue_goal ⟨1, 1, 0⟩
    (by norm_num [revenue_goal]) (by norm_num [revenue_goal])
    (by norm_num [revenue_goal])

/-- The `[0,100]` invariant survives any sequence of cycles for
`performance`/`quality` goals. -/
theorem run_cycles_bounds (ctxs : List BeliefContext) (d : Desire)
    (ht : d.type = "performance" ∨ d.type = "quality")
    (h0 : 0 ≤ d.current_value) (h1 : d.current_value ≤ 100) :
    0 ≤ (run_cycles d ctxs).current_value
    ∧ (run_cycles d ctxs).current_value ≤ 100 := by
  induction ctxs generalizing d with
  | nil => exact ⟨h0, h1⟩
  | cons ctx rest ih =>
    have hstep := updateCurrentValue_bounds ctx d ht h0 h1
    have ht2 : (updateDesire ctx d).type = "performance"
        ∨ (updateDesire ctx d).type = "quality" := by
      rw [updateDesire_type_eq]; exact ht
    have hcv := updateDesire_current_value_eq ctx d
    exact ih (updateDesire ctx d) ht2 (hcv ▸ hstep.1) (hcv ▸ hstep.2)

/-- Claim C4: across every sequence of cycles, a `performance` or `quality`
goal starting in `[0,100]` never leaves `[0,100]`; a `financial` goal is
never clamped — one cycle with fresh beliefs adds exactly
`new_beliefs * 10`, so its value exceeds any bound after a suitable cycle. -/
theorem clamp_asymmetry :
    (∀ (ctxs : List BeliefContext) (d : Desire),
        d.type = "performance" ∨ d.type = "quality" →
        0 ≤ d.current_value → d.current_value ≤ 100 →
        0 ≤ (run_cycles d ctxs).current_value
          ∧ (run_cycles d ctxs).current_value ≤ 100)
    ∧ (∀ (ctx : BeliefContext) (d : Desire), d.type = "financial" →
        0 < ctx.new_beliefs →
        (updateDesire ctx d).current_value
          = d.current_value + (ctx.new_beliefs : ℚ) * 10)
    ∧ (∀ (d : Desire), d.type = "financial" → ∀ B : ℚ,
        ∃ ctxs : List BeliefContext,
          B < (run_cycles d ctxs).current_value) := by
  refine ⟨run_cycles_bounds, financial_step_eq, ?_⟩
  intro d hf B
  set n : ℕ := (Int.ceil (B - d.current_value)).toNat + 1 with hn
  refine ⟨[⟨0, n, 0⟩], ?_⟩
  have hrun : run_cycles d [⟨0, n, 0⟩] = updateDesire ⟨0, n, 0⟩ d := rfl
  rw [hrun, financial_step_eq ⟨0, n, 0⟩ d hf (Nat.succ_pos _)]
  have hceil : B - d.current_value ≤ ((Int.ceil (B - d.current_value)).toNat : ℚ) := by
    calc B - d.current_value ≤ ((Int.ceil (B - d.current_value)) : ℚ) :=
          Int.le_ceil _
      _ ≤ (((Int.ceil (B - d.current_value)).toNat : ℤ) : ℚ) := by
          exact_mod_cast Int.self_le_toNat _
      _ = ((Int.ceil (B - d.current_value)).toNat : ℚ) := by push_cast; ring
  have hcast : ((Int.ceil (B - d.current_value)).toNat : ℚ) + 1 = (n : ℚ) := by
    rw [hn]; push_cast; ring
  have hp : (0:ℚ) ≤ (n : ℚ) := by positivity
  nlinarith [hceil, hcast, hp]

/-- The seeded `system_efficiency` goal (second entry of
`default_desires`). -/
def efficiency_goal : Desire :=
  { id := "system_efficiency", name := "System Efficiency",
    type := "performance", target_value := 95, current_value := 80,
    priority := 4/5, weight := 4/5, status := "active" }

/-- Witness for C4: the seeded performance goal stays in `[0,100]` after two
concrete cycles, and the seeded financial goal exceeds `10 ^ 6` after some
sequence of cycles. -/
theorem clamp_asymmetry_witness :
    (0 ≤ (run_cycles efficiency_goal [⟨7, 3, 2⟩, ⟨0, 0, 0⟩]).current_value
      ∧ (run_cycles efficiency_goal [⟨7, 3, 2⟩, ⟨0, 0, 0⟩]).current_value ≤ 100)
    ∧ (updateDesire ⟨0, 4, 0⟩ revenue_goal).current_value
        = revenue_goal.current_value + ((4:ℕ) : ℚ) * 10
    ∧ ∃ ctxs : List BeliefContext,
        (10 ^ 6 : ℚ) < (run_cycles revenue_goal ctxs).current_value :=
  ⟨clamp_asymmetry.1 [⟨7, 3, 2⟩, ⟨0, 0, 0⟩] efficiency_goal (Or.inl rfl)
      (by norm_num [efficiency_goal]) (by norm_num [efficiency_goal]),
    clamp_asymmetry.2.1 ⟨0, 4, 0⟩ revenue_goal rfl (by norm_num),
    clamp_asymmetry.2.2 revenue_goal rfl (10 ^ 6)⟩

/-- Appending a matching record to a store with no match makes `find?` hit
exactly that record. -/
theorem find?_append_of_none {p : Belief → Bool} {l : List Belief} {b : Belief}
    (h : l.find? p = none) (hb : p b = true) :
    (l ++ [b]).find? p = some b := by
  induction l with
  | nil => simp [List.find?, hb]
  | cons x xs ih =>
    rw [List.find?_cons] at h
    rcases hfx : p x with _ | _
    · rw [List.cons_append, List.find?_cons, hfx]
      rw [hfx] at h
      exact ih h
    · rw [hfx] at h
      cases h

/-- A store in which `find?` misses contains no matching record. -/
theorem filter_eq_nil_of_find?_none {p : Belief → Bool} {l : List Belief}
    (h : l.find? p = none) : l.filter p = [] := by
  rw [List.filter_eq_nil_iff]
  intro a ha
  exact List.find?_eq_none.mp h a ha

/-- The record `process_source_data` inserts for a fresh observation. -/
def inserted_belief (source_name content_str : String) : Belief :=
  { id := belief_id source_name content_str
    content := content_str
    source := source_name
    confidence := 4/5 }

/-- Claim C5: belief ingestion is idempotent.  If the store has no record
with the observation's content-hash id, processing the payload once inserts
it (`new = 1`, `processed = 1`); processing the same payload from the same
source again leaves the store unchanged, stores no second record (exactly
one record with that id exists), and counts the item as processed but not as
new. -/
theorem process_source_data_idempotent (store : List Belief)
    (source_name content_str : String)
    (h : store.find? (fun b => b.id == belief_id source_name content_str)
        = none) :
    (process_source_data
        (process_source_data store source_name [content_str]).1
        source_name [content_str]).1
      = (process_source_data store source_name [content_str]).1
    ∧ ((process_source_data
          (process_source_data store source_name [content_str]).1
          source_name [content_str]).1.filter
        (fun b => b.id == belief_id source_name content_str)).length = 1
    ∧ (process_source_data store source_name [content_str]).2.new = 1
    ∧ (process_source_data
        (process_source_data store source_name [content_str]).1
        source_name [content_str]).2.new = 0
    ∧ (process_source_data store source_name [content_str]).2.processed = 1
    ∧ (process_source_data
        (process_source_data store source_name [content_str]).1
        source_name [content_str]).2.processed = 1 := by
  have hb : (fun b : Belief => b.id == belief_id source_name content_str)
      (inserted_belief source_name content_str) = true := by
    simp [inserted_belief]
  have h1 : process_source_data store source_name [content_str]
      = (store ++ [inserted_belief source_name content_str], ⟨1, 1⟩) := by
    rw [process_source_data, h]
    rfl
  have hfind2 := find?_append_of_none h hb
  have h2 : process_source_data
      (store ++ [inserted_belief source_name content_str])
      source_name [content_str]
      = (store ++ [inserted_belief source_name content_str], ⟨1, 0⟩) := by
    rw [process_source_data, hfind2]
    rfl
  rw [h1]
  simp only [h2]
  simp [List.filter_append, filter_eq_nil_of_find?_none h, inserted_belief]

/-- Witness for C5: ingesting the observation `"x"` from `local_sensors`
twice into an empty store. -/
theorem process_source_data_idempotent_witness :
    (process_source_data
        (process_source_data [] "local_sensors" ["x"]).1
        "local_sensors" ["x"]).1
      = (process_source_data [] "local_sensors" ["x"]).1
    ∧ ((process_source_data
          (process_source_data [] "local_sensors" ["x"]).1
          "local_sensors" ["x"]).1.filter
        (fun b => b.id == belief_id "local_sensors" "x")).length = 1
    ∧ (process_source_data [] "local_sensors" ["x"]).2.new = 1
    ∧ (process_source_data
        (process_source_data [] "local_sensors" ["x"]).1
        "local_sensors" ["x"]).2.new = 0
    ∧ (process_source_data [] "local_sensors" ["x"]).2.processed = 1
    ∧ (process_source_data
        (process_source_data [] "local_sensors" ["x"]).1
        "local_sensors" ["x"]).2.processed = 1 :=
  process_source_data_idempotent [] "local_sensors" "x" rfl

/-- Claim C6: the ranked list has length ≤ the number of input goals (in
fact equal), is sorted descending by score, and the sort is stable: two
goals with equal score appear in the output in their input order. -/
theorem optimizer_ranked_sorted_stable (desires : List Desire) :
    (run_lightweight_optimization desires).prioritized_desires.length
      ≤ desires.length
    ∧ List.Pairwise (fun a b => total_score b ≤ total_score a)
        (run_lightweight_optimization desires).prioritized_desires
    ∧ ∀ a b : Desire, total_score a = total_score b →
        List.Sublist [a, b] desires →
        List.Sublist [a, b]
          (run_lightweight_optimization desires).prioritized_desires := by
  refine ⟨?_, ?_, ?_⟩
  · exact le_of_eq (List.length_insertionSort scoreGe desires)
  · exact List.sorted_insertionSort scoreGe desires
  · intro a b hs hsub
    exact List.pair_sublist_insertionSort (le_of_eq hs.symm) hsub

/-- A twin of `heavy_goal` with a different id but the same score. -/
def heavy_goal_twin : Desire :=
  { id := "heavy_twin", name := "Heavy Twin", type := "misc",
    target_value := 0, current_value := 0, priority := 1/2, weight := 5,
    status := "active" }

/-- Witness for C6: on a two-element list of equal-score goals the ranked
output keeps the input order. -/
theorem optimizer_ranked_sorted_stable_witness :
    List.Sublist [heavy_goal, heavy_goal_twin]
      (run_lightweight_optimization
        [heavy_goal, heavy_goal_twin]).prioritized_desires :=
  (optimizer_ranked_sorted_stable [heavy_goal, heavy_goal_twin]).2.2
    heavy_goal heavy_goal_twin rfl (List.Sublist.refl _)

/-- A candidate action whose cost exceeds a capacity of 1. -/
def big_action : ActionCandidate :=
  { id := "optimize_db", cost := 2, impact := 3, duration := 1 }

/-- Claim C7 counterexample: the classical fallback
(`_classical_optimize_plan`) is a plain `impact > cost` filter with no
capacity bound: for the candidate list `[big_action]` (cost 2, impact 3) and
capacity 1 the selection's total cost is 2, exceeding the capacity, so
"greedy selection by value/weight ratio never exceeds the capacity" fails. -/
theorem classical_fallback_capacity_cex :
    ¬ (((classical_optimize_plan [big_action]).map
        ActionCandidate.cost).sum ≤ 1) := by
  norm_num [classical_optimize_plan, big_action, List.filter]

/-- Claim C7 (amended): neither classical fallback performs a
capacity-bounded ratio-greedy selection; each is an order-preserving filter
keeping exactly the candidates whose value strictly exceeds their cost
(`impact > cost` for action planning, `utility > cost` for desires, the
latter also reporting the summed net value), with no capacity constraint. -/
theorem classical_fallback_filter_characterization
    (actions : List ActionCandidate) (desires : List CandidateDesire) :
    List.Sublist (classical_optimize_plan actions) actions
    ∧ (∀ a : ActionCandidate,
        a ∈ classical_optimize_plan actions ↔ a ∈ actions ∧ a.cost < a.impact)
    ∧ List.Sublist (solve_classical_optimization desires).selected_desires
        desires
    ∧ (∀ d : CandidateDesire,
        d ∈ (solve_classical_optimization desires).selected_desires
          ↔ d ∈ desires ∧ d.cost < d.utility)
    ∧ (solve_classical_optimization desires).net_value
        = ((solve_classical_optimization desires).selected_desires.map
            (fun d => d.utility - d.cost)).sum := by
  refine ⟨List.filter_sublist _, ?_, List.filter_sublist _, ?_, rfl⟩
  · intro a
    simp [classical_optimize_plan, List.mem_filter]
  · intro d
    simp [solve_classical_optimization, List.mem_filter]

/-- Claim C8: if the database read or the persistence step of
`optimize_desires` raises, the call returns `error` with `count = 0` and no
`top_desires` instead of propagating, and the subsequent `execute_intentions`
for that cycle takes no action and appends no Action Execution Record. -/
theorem optimize_error_reports_and_skips_action
    (get_all : Except String (List Desire))
    (persist : List Desire → Except String Unit)
    (ctx : BeliefContext) (outcome : NotifyOutcome) (e : String)
    (herr : get_all = .error e
        ∨ ∃ ds, get_all = .ok ds
            ∧ persist (update_desires_from_beliefs ds ctx) = .error e) :
    (optimize_desires get_all persist ctx).error = some e
    ∧ (optimize_desires get_all persist ctx).count = 0
    ∧ (optimize_desires get_all persist ctx).top_desires = []
    ∧ execute_intentions (optimize_desires get_all persist ctx).top_desires
        outcome = { actions := 0, records := [] } := by
  rcases herr with h | ⟨ds, hok, hp⟩
  · subst h
    exact ⟨rfl, rfl, rfl, rfl⟩
  · subst hok
    simp only [optimize_desires, hp]
    simp [execute_intentions]

/-- Witness for C8: a failing database read. -/
theorem optimize_error_reports_and_skips_action_witness :
    (optimize_desires (Except.error "db locked")
        (fun _ => Except.ok ()) ⟨0, 0, 0⟩).error = some "db locked"
    ∧ (optimize_desires (Except.error "db locked")
        (fun _ => Except.ok ()) ⟨0, 0, 0⟩).count = 0
    ∧ (optimize_desires (Except.error "db locked")
        (fun _ => Except.ok ()) ⟨0, 0, 0⟩).top_desires = []
    ∧ execute_intentions
        (optimize_desires (Except.error "db locked")
          (fun _ => Except.ok ()) ⟨0, 0, 0⟩).top_desires NotifyOutcome.sent
      = { actions := 0, records := [] } :=
  optimize_error_reports_and_skips_action (Except.error "db locked")
    (fun _ => Except.ok ()) ⟨0, 0, 0⟩ NotifyOutcome.sent "db locked"
    (Or.inl rfl)

/-- Claim C10: whenever the ranked list is non-empty the executor attempts
exactly one action and appends exactly one Action Execution Record, and
`actions = 1` even when the notification capability fails — the failing
outcomes only change the record's status to `"failed"`. -/
theorem executor_single_action_even_on_failure (desire : Desire)
    (rest : List Desire) (outcome : NotifyOutcome) :
    (execute_intentions (desire :: rest) outcome).actions = 1
    ∧ (execute_intentions (desire :: rest) outcome).records.length = 1
    ∧ (outcome ≠ NotifyOutcome.sent →
        (execute_intentions (desire :: rest) outcome).records
          = [{ action_type := "send_notification", status := "failed" }]) := by
  cases outcome <;>
    simp [execute_intentions, select_action_for_desire, available_actions,
      run_action, send_notification]

/-- Witness for C10: executing with the seeded revenue goal on top while the
notification command is missing still counts one action, and logs one
`failed` record. -/
theorem executor_single_action_even_on_failure_witness :
    (execute_intentions [revenue_goal] NotifyOutcome.commandNotFound).actions
      = 1
    ∧ (execute_intentions [revenue_goal]
        NotifyOutcome.commandNotFound).records.length = 1
    ∧ (execute_intentions [revenue_goal] NotifyOutcome.commandNotFound).records
        = [{ action_type := "send_notification", status := "failed" }] :=
  ⟨(executor_single_action_even_on_failure revenue_goal []
      NotifyOutcome.commandNotFound).1,
    (executor_single_action_even_on_failure revenue_goal []
      NotifyOutcome.commandNotFound).2.1,
    (executor_single_action_even_on_failure revenue_goal []
      NotifyOutcome.commandNotFound).2.2 (by simp)⟩
